import Mathlib

/-!
Verification of `tiff_to_npy.py` (batch GeoTIFF → numpy conversion utility).

The Python source is shallowly embedded as follows:

* Python strings (filenames, paths) become `PyStr := List Char`; `str.split(sep)`
  becomes `pySplit`, `os.path.basename` becomes `pyBasename`, `os.path.dirname`
  becomes `pyDirname`, `os.path.join` becomes `pyJoin`, each with the POSIX
  semantics of the corresponding Python function.
* Floating-point pixel values are classified as `Val`: not-a-number, positive or
  negative infinity, or a finite value (carried as a rational, since the
  conversion never performs arithmetic on pixel values — it only classifies and
  copies them).  `np.nan_to_num(data, nan=0.0)` becomes `nan_to_num` mapped over
  the array: numpy replaces NaN with the given `0.0` and, because `posinf` /
  `neginf` are left at their defaults, replaces infinities with the largest /
  most negative finite value of the dtype (`float32Max` here, for float32 data).
* The filesystem is an association list `FS` from paths to entries: a readable
  raster (with the band count / height / width reported by `rasterio` and the
  `[bands, height, width]` pixel data returned by `src.read()`), a saved `.npy`
  artifact, or an unreadable file.  Errors raised by the Python code (the
  `IndexError` from `basename.split('_')[1]` on a filename without a second
  token — the spec's `MalformedFilename` — and any `rasterio` open/decode
  failure — the spec's `SourceUnreadable`) become the `ConvErr` error type of
  `convert_tif_to_npy`; a raised error leaves the filesystem unchanged, which is
  faithful because both raises occur before `np.save`.
* The driver loop of `main` (lines 79–93: try / convert / append on success,
  catch / count the failure and continue) becomes `batchStep` folded by
  `mainLoop`.
-/

/-- A Python string, as a sequence of characters. -/
abbrev PyStr := List Char

/-- Embed a Lean string literal as a `PyStr`. -/
def pstr (s : String) : PyStr := s.data

/-- Python's `s.split(sep)` for a one-character separator: splits at every
occurrence of `sep`, keeping empty fields, so `n` separators yield `n + 1`
fields and the empty string yields `[""]`. -/
def pySplit (sep : Char) : PyStr → List PyStr
  | [] => [[]]
  | c :: cs =>
    let r := pySplit sep cs
    if c = sep then [] :: r
    else (c :: r.headD []) :: r.tail

/-- Python's `os.path.basename`: everything after the last `/`. -/
def pyBasename (p : PyStr) : PyStr := (pySplit '/' p).getLastD []

/-- Python's `os.path.dirname` (POSIX): the part of the path before the last
`/`, with trailing slashes stripped unless the result is all slashes. -/
def pyDirname (p : PyStr) : PyStr :=
  let head := (p.reverse.dropWhile (fun c => !(c == '/'))).reverse
  if head.isEmpty || head.all (fun c => c == '/') then head
  else (head.reverse.dropWhile (fun c => c == '/')).reverse

/-- Python's `os.path.join(d, n)` (POSIX, two arguments): `n` if it is
absolute, otherwise `d` and `n` joined with a single `/`. -/
def pyJoin (d n : PyStr) : PyStr :=
  if n.head? = some '/' then n
  else if d.isEmpty then n
  else if d.getLast? = some '/' then d ++ n
  else d ++ '/' :: n

/-- Classification of one floating-point pixel value. -/
inductive Val where
  | nan : Val
  | posinf : Val
  | neginf : Val
  | finite (q : ℚ) : Val
deriving DecidableEq

/-- The largest finite float32 value, `(2^24 - 1) * 2^104`
(`np.finfo(np.float32).max`). -/
def float32Max : ℚ := 2 ^ 128 - 2 ^ 104

/-- `np.nan_to_num(·, nan=0.0)` on one value: NaN becomes `0.0`, and — because
the call in `convert_tif_to_npy` leaves `posinf` / `neginf` at their numpy
defaults — positive and negative infinity become the largest and most negative
finite values of the dtype; finite values are unchanged. -/
def nan_to_num : Val → Val
  | .nan => .finite 0
  | .posinf => .finite float32Max
  | .neginf => .finite (-float32Max)
  | .finite q => .finite q

/-- A `[bands, height, width]` pixel array. -/
abbrev Arr3 := List (List (List Val))

/-- `np.nan_to_num(data, nan=0.0)` applied elementwise to the whole array
(line 47 of the source). -/
def cleanData (d : Arr3) : Arr3 :=
  d.map (fun band => band.map (fun row => row.map nan_to_num))

/-- The value of an array at band `b`, row `i`, column `j`, if in bounds. -/
def getVal (d : Arr3) (b i j : ℕ) : Option Val :=
  (d[b]?.bind (·[i]?)).bind (·[j]?)

/-- `d` has shape exactly `[b, h, w]`. -/
def hasShape (d : Arr3) (b h w : ℕ) : Prop :=
  d.length = b ∧ ∀ band ∈ d, band.length = h ∧ ∀ row ∈ band, row.length = w

instance (d : Arr3) (b h w : ℕ) : Decidable (hasShape d b h w) := by
  unfold hasShape
  infer_instance

/-- A readable multi-band raster source: the band count, height and width
reported by the `rasterio` dataset, and the pixel data returned by
`src.read()`. -/
structure Raster where
  count : ℕ
  height : ℕ
  width : ℕ
  data : Arr3
deriving DecidableEq

/-- One file on the filesystem: a readable raster, a saved numpy artifact, or
a file that the raster backend cannot open or decode. -/
inductive Entry where
  | raster (r : Raster) : Entry
  | npy (d : Arr3) : Entry
  | unreadable : Entry
deriving DecidableEq

/-- Lookup in an association list of filesystem entries (first match wins). -/
def lookupEntry : List (PyStr × Entry) → PyStr → Option Entry
  | [], _ => none
  | (q, e) :: rest, p => if p = q then some e else lookupEntry rest p

/-- The filesystem: a finite map from paths to entries. -/
structure FS where
  entries : List (PyStr × Entry)
deriving DecidableEq

/-- The entry at path `p`, if any. -/
def FS.lookup (fs : FS) (p : PyStr) : Option Entry := lookupEntry fs.entries p

/-- Python's `os.path.exists` on this filesystem model. -/
def FS.existsPath (fs : FS) (p : PyStr) : Bool := (fs.lookup p).isSome

/-- `np.save(p, d)`: create a `.npy` artifact at `p`. -/
def FS.save (fs : FS) (p : PyStr) (d : Arr3) : FS := ⟨(p, .npy d) :: fs.entries⟩

/-- The errors `convert_tif_to_npy` can raise: the `IndexError` from
`basename.split('_')[1]` (the spec's `MalformedFilename`) and a `rasterio`
open/decode failure (the spec's `SourceUnreadable`). -/
inductive ConvErr where
  | malformedFilename : ConvErr
  | sourceUnreadable : ConvErr
deriving DecidableEq

instance {ε α : Type _} [DecidableEq ε] [DecidableEq α] : DecidableEq (Except ε α) :=
  fun x y =>
  match x, y with
  | .error a, .error b =>
    if h : a = b then isTrue (by rw [h]) else isFalse (by simp [h])
  | .error _, .ok _ => isFalse (by simp)
  | .ok _, .error _ => isFalse (by simp)
  | .ok a, .ok b =>
    if h : a = b then isTrue (by rw [h]) else isFalse (by simp [h])

/-- The f-string of line 26, `f"austin_embeddings_{year}_800m_64d.npy"`:
only the year token is interpolated; `austin` and `800m` are literals. -/
def outputBasename (year : PyStr) : PyStr :=
  pstr "austin_embeddings_" ++ year ++ pstr "_800m_64d.npy"

/-- The output filename the converter derives from a source basename
(lines 19–26): the second `_`-delimited token of the basename, substituted
into the fixed template; `none` when there is no second token (the
`IndexError` case). -/
def derivedOutputName (basename : PyStr) : Option PyStr :=
  ((pySplit '_' basename)[1]?).map outputBasename

/-- `convert_tif_to_npy(tif_file, output_dir)` (lines 16–58) as a function on
the filesystem model: extract the year token (or fail), derive the output
path, short-circuit if it exists, otherwise read the source raster (or fail),
clean it and save it. -/
def convert_tif_to_npy (fs : FS) (tif_file : PyStr) (output_dir : Option PyStr) :
    Except ConvErr (FS × PyStr) :=
  let basename := pyBasename tif_file
  match (pySplit '_' basename)[1]? with
  | none => .error .malformedFilename
  | some year =>
    let odir := output_dir.getD (pyDirname tif_file)
    let output_file := pyJoin odir (outputBasename year)
    if fs.existsPath output_file then
      .ok (fs, output_file)
    else
      match fs.lookup tif_file with
      | some (.raster r) => .ok (fs.save output_file (cleanData r.data), output_file)
      | _ => .error .sourceUnreadable

/-- One iteration of the driver loop of `main` (lines 80–87): on success the
output path is appended to `converted_files`; on any error the failure is
reported (counted here) and the loop continues. -/
def batchStep (st : FS × List PyStr × ℕ) (f : PyStr) : FS × List PyStr × ℕ :=
  match convert_tif_to_npy st.1 f none with
  | .ok (fs', out) => (fs', st.2.1 ++ [out], st.2.2)
  | .error _ => (st.1, st.2.1, st.2.2 + 1)

/-- The driver loop of `main` over the candidate files (lines 79–93):
returns the final filesystem, the `converted_files` list, and the number of
per-file failures reported. -/
def mainLoop (fs : FS) (files : List PyStr) : FS × List PyStr × ℕ :=
  files.foldl batchStep (fs, [], 0)

/-- The glob filter of `main` line 69, `austin_*_800m.tif`, on a basename:
the name is `austin_`, then anything (possibly containing underscores), then
`_800m.tif`. -/
def matchesAustinGlob (b : PyStr) : Bool :=
  (pstr "austin_").isPrefixOf b && (pstr "_800m.tif").isSuffixOf b &&
    decide (16 ≤ b.length)

/-! ### Helper lemmas -/

theorem pySplit_ne_nil (sep : Char) (p : PyStr) : pySplit sep p ≠ [] := by
  cases p with
  | nil => simp [pySplit]
  | cons c cs =>
    simp only [pySplit]
    split <;> simp

theorem pySplit_no_sep {sep : Char} {p : PyStr} (h : sep ∉ p) :
    pySplit sep p = [p] := by
  induction p with
  | nil => rfl
  | cons c cs ih =>
    simp only [List.mem_cons, not_or] at h
    simp only [pySplit, ih h.2]
    rw [if_neg (fun hc => h.1 hc.symm)]
    rfl

theorem pySplit_append_sep {sep : Char} {p rest : PyStr} (h : sep ∉ p) :
    pySplit sep (p ++ sep :: rest) = p :: pySplit sep rest := by
  induction p with
  | nil => simp [pySplit]
  | cons c cs ih =>
    simp only [List.mem_cons, not_or] at h
    simp only [List.cons_append, pySplit, List.append_eq, ih h.2]
    rw [if_neg (fun hc => h.1 hc.symm)]
    simp

/-- The second `_`-delimited token of `p_y_s` is `y`, provided `p` and `y`
themselves contain no underscore. -/
theorem pySplit_second_token {p y s : PyStr} (hp : '_' ∉ p) (hy : '_' ∉ y) :
    (pySplit '_' (p ++ '_' :: (y ++ '_' :: s)))[1]? = some y := by
  rw [pySplit_append_sep hp, pySplit_append_sep hy]
  simp

theorem lookupEntry_cons (q : PyStr) (e : Entry) (rest : List (PyStr × Entry))
    (p : PyStr) :
    lookupEntry ((q, e) :: rest) p = if p = q then some e else lookupEntry rest p :=
  rfl

/-- Characterization of the short-circuit path (lines 29–31): when the derived
output path already exists, `convert_tif_to_npy` returns it with the
filesystem unchanged, whatever the source entry holds. -/
theorem convert_shortCircuit {fs : FS} {tif_file year : PyStr}
    {output_dir : Option PyStr}
    (hy : (pySplit '_' (pyBasename tif_file))[1]? = some year)
    (hex : fs.existsPath
      (pyJoin (output_dir.getD (pyDirname tif_file)) (outputBasename year)) = true) :
    convert_tif_to_npy fs tif_file output_dir =
      .ok (fs, pyJoin (output_dir.getD (pyDirname tif_file)) (outputBasename year)) := by
  simp only [convert_tif_to_npy, hy, hex, if_true]

/-- Characterization of the fresh-conversion path (lines 33–58): when the
output path does not exist and the source is a readable raster, the cleaned
data is saved at the output path. -/
theorem convert_fresh {fs : FS} {tif_file year : PyStr} {output_dir : Option PyStr}
    {r : Raster}
    (hy : (pySplit '_' (pyBasename tif_file))[1]? = some year)
    (hex : fs.existsPath
      (pyJoin (output_dir.getD (pyDirname tif_file)) (outputBasename year)) = false)
    (hr : fs.lookup tif_file = some (.raster r)) :
    convert_tif_to_npy fs tif_file output_dir =
      .ok (fs.save (pyJoin (output_dir.getD (pyDirname tif_file)) (outputBasename year))
            (cleanData r.data),
           pyJoin (output_dir.getD (pyDirname tif_file)) (outputBasename year)) := by
  simp only [convert_tif_to_npy, hy, hex, Bool.false_eq_true, if_false, hr]

/-- Inversion: a successful conversion determines the year token, the output
path, and the resulting filesystem (either unchanged, or with the cleaned
source raster saved on top). -/
theorem convert_ok_inv {fs fs' : FS} {tif_file out : PyStr}
    {output_dir : Option PyStr}
    (h : convert_tif_to_npy fs tif_file output_dir = .ok (fs', out)) :
    ∃ year, (pySplit '_' (pyBasename tif_file))[1]? = some year ∧
      out = pyJoin (output_dir.getD (pyDirname tif_file)) (outputBasename year) ∧
      ((fs.existsPath out = true ∧ fs' = fs) ∨
       (fs.existsPath out = false ∧
        ∃ r, fs.lookup tif_file = some (.raster r) ∧
          fs' = fs.save out (cleanData r.data))) := by
  cases hy : (pySplit '_' (pyBasename tif_file))[1]? with
  | none => simp [convert_tif_to_npy, hy] at h
  | some year =>
    simp only [convert_tif_to_npy, hy] at h
    refine ⟨year, rfl, ?_⟩
    by_cases hex : fs.existsPath
        (pyJoin (output_dir.getD (pyDirname tif_file)) (outputBasename year)) = true
    · rw [if_pos hex] at h
      cases h
      exact ⟨rfl, Or.inl ⟨hex, rfl⟩⟩
    · rw [if_neg hex] at h
      cases hr : fs.lookup tif_file with
      | none => simp [hr] at h
      | some e =>
        cases e with
        | raster r =>
          simp only [hr] at h
          cases h
          exact ⟨rfl, Or.inr ⟨by simpa using hex, r, rfl, rfl⟩⟩
        | npy d => simp [hr] at h
        | unreadable => simp [hr] at h

/-- `getVal` commutes with cleaning: the cleaned array holds `nan_to_num` of
the source value at every position. -/
theorem getVal_cleanData (d : Arr3) (b i j : ℕ) :
    getVal (cleanData d) b i j = (getVal d b i j).map nan_to_num := by
  unfold getVal cleanData
  cases hb : d[b]? with
  | none => simp [List.getElem?_map, hb]
  | some band =>
    cases hi : band[i]? with
    | none => simp [List.getElem?_map, hb, hi]
    | some row => simp [List.getElem?_map, hb, hi]

theorem nan_to_num_ne_nan (v : Val) : nan_to_num v ≠ Val.nan := by
  cases v <;> simp [nan_to_num]

/-- Rewriting a `<prefix>_<year>_<suffix>.tif` filename into the cons form the
split lemmas work on. -/
theorem name_split_form (p y s : PyStr) :
    p ++ pstr "_" ++ y ++ pstr "_" ++ s ++ pstr ".tif" =
      p ++ '_' :: (y ++ '_' :: (s ++ pstr ".tif")) := by
  simp only [show pstr "_" = ['_'] from rfl, List.append_assoc, List.singleton_append,
    List.cons_append, List.nil_append]

/-- The output name derived from a basename whose first two `_`-delimited
tokens are `p` and `y`. -/
theorem derivedOutputName_tokens {p y s : PyStr} (hp : '_' ∉ p) (hy : '_' ∉ y) :
    derivedOutputName (p ++ '_' :: (y ++ '_' :: s)) = some (outputBasename y) := by
  unfold derivedOutputName
  rw [pySplit_second_token hp hy]
  rfl

/-- A freshly saved entry is found at its path. -/
theorem lookup_save_self (fs : FS) (p : PyStr) (d : Arr3) :
    (fs.save p d).lookup p = some (Entry.npy d) := by
  simp [FS.save, FS.lookup, lookupEntry]

/-- Saving at one path does not affect lookups at any other path. -/
theorem lookup_save_other (fs : FS) (p q : PyStr) (d : Arr3) (h : q ≠ p) :
    (fs.save p d).lookup q = fs.lookup q := by
  simp [FS.save, FS.lookup, lookupEntry, h]

/-- Cleaning preserves the `[bands, height, width]` shape of the array. -/
theorem hasShape_cleanData {d : Arr3} {b h w : ℕ} (hs : hasShape d b h w) :
    hasShape (cleanData d) b h w := by
  obtain ⟨hlen, hband⟩ := hs
  refine ⟨by simpa [cleanData] using hlen, ?_⟩
  intro band hmem
  rw [cleanData, List.mem_map] at hmem
  obtain ⟨band₀, hband₀, rfl⟩ := hmem
  obtain ⟨hbl, hrow⟩ := hband band₀ hband₀
  refine ⟨by simpa using hbl, ?_⟩
  intro row hrm
  rw [List.mem_map] at hrm
  obtain ⟨row₀, hrow₀, rfl⟩ := hrm
  simpa using hrow row₀ hrow₀

/-! ### Claims -/

/-- C1, counterexample: the claim says `convert` preserves the input's
prefix and suffix tokens, so `dallas_2023_400m.tif` would have to map to
`dallas_embeddings_2023_400m_64d.npy`; the code maps it to
`austin_embeddings_2023_800m_64d.npy`, because line 26 hardcodes `austin`
and `800m` in the output template. -/
theorem C1_counterexample :
    derivedOutputName (pstr "dallas_2023_400m.tif") =
      some (pstr "austin_embeddings_2023_800m_64d.npy") ∧
    derivedOutputName (pstr "dallas_2023_400m.tif") ≠
      some (pstr "dallas_embeddings_2023_400m_64d.npy") := by
  constructor
  · decide
  · decide

/-- C1, amended: for every valid source filename `<prefix>_<year>_<suffix>.tif`
(prefix and year containing no underscore), the derived output filename equals
`austin_embeddings_<year>_800m_64d.npy`: the year token is preserved, but the
prefix and suffix are replaced by the fixed literals `austin` and `800m`. -/
theorem C1_amended_output_name (p y s : PyStr) (hp : '_' ∉ p) (hy : '_' ∉ y) :
    derivedOutputName (p ++ pstr "_" ++ y ++ pstr "_" ++ s ++ pstr ".tif") =
      some (pstr "austin_embeddings_" ++ y ++ pstr "_800m_64d.npy") := by
  rw [name_split_form, derivedOutputName_tokens hp hy]
  rfl

/-- Witness for C1 (amended) at the spec's example `austin_2023_800m.tif`. -/
theorem C1_amended_output_name_witness :
    ('_' ∉ pstr "austin") ∧ ('_' ∉ pstr "2023") ∧
    derivedOutputName
        (pstr "austin" ++ pstr "_" ++ pstr "2023" ++ pstr "_" ++ pstr "800m" ++ pstr ".tif") =
      some (pstr "austin_embeddings_" ++ pstr "2023" ++ pstr "_800m_64d.npy") :=
  ⟨by decide, by decide,
    C1_amended_output_name (pstr "austin") (pstr "2023") (pstr "800m") (by decide) (by decide)⟩

/-- C2, counterexample: the claim says every value other than NaN — including
infinities — passes through unchanged; but `np.nan_to_num(data, nan=0.0)`
leaves `posinf`/`neginf` at their numpy defaults, so a positive infinity is
replaced by the largest finite value of the dtype, not preserved. -/
theorem C2_counterexample :
    cleanData [[[Val.posinf]]] ≠ [[[Val.posinf]]] ∧
    cleanData [[[Val.posinf]]] = [[[Val.finite float32Max]]] := by
  constructor
  · simp [cleanData, nan_to_num]
  · simp [cleanData, nan_to_num]

/-- C2, amended: the cleaning step maps each position through `nan_to_num`:
NaN becomes `0.0` and every finite value is preserved exactly at its position,
but positive/negative infinities are replaced by the largest/most negative
finite value of the dtype (numpy's default) rather than passed through; the
cleaned array contains zero NaN entries. -/
theorem C2_amended_clean (d : Arr3) (b i j : ℕ) (v : Val)
    (h : getVal d b i j = some v) :
    getVal (cleanData d) b i j = some (nan_to_num v) ∧
    (v = Val.nan → nan_to_num v = Val.finite 0) ∧
    (∀ q, v = Val.finite q → nan_to_num v = Val.finite q) ∧
    (v = Val.posinf → nan_to_num v = Val.finite float32Max) ∧
    (v = Val.neginf → nan_to_num v = Val.finite (-float32Max)) ∧
    (∀ b' i' j', getVal (cleanData d) b' i' j' ≠ some Val.nan) := by
  refine ⟨by rw [getVal_cleanData, h]; rfl, ?_, ?_, ?_, ?_, ?_⟩
  · rintro rfl; rfl
  · rintro q rfl; rfl
  · rintro rfl; rfl
  · rintro rfl; rfl
  · intro b' i' j' hcon
    rw [getVal_cleanData] at hcon
    cases hv : getVal d b' i' j' with
    | none => rw [hv] at hcon; exact Option.noConfusion hcon
    | some w =>
      rw [hv] at hcon
      exact nan_to_num_ne_nan w (Option.some.injEq _ _ ▸ hcon)

/-- Witness for C2 (amended) at the spec's example band `[[NaN, 1.5], [2.0, NaN]]`. -/
theorem C2_amended_clean_witness :
    getVal [[[Val.nan, Val.finite (3 / 2)], [Val.finite 2, Val.nan]]] 0 0 0 = some Val.nan ∧
    getVal (cleanData [[[Val.nan, Val.finite (3 / 2)], [Val.finite 2, Val.nan]]]) 0 0 0 =
      some (nan_to_num Val.nan) :=
  ⟨by decide, (C2_amended_clean _ 0 0 0 Val.nan (by decide)).1⟩

/-- C4: for every source path whose basename has no second `_`-delimited token,
`convert_tif_to_npy` fails with `MalformedFilename` (the `IndexError` from
line 20) for every filesystem state — in particular before, and independent of,
any file I/O on the source or the output path. -/
theorem C4_malformed_filename (fs : FS) (tif_file : PyStr) (output_dir : Option PyStr)
    (h : (pySplit '_' (pyBasename tif_file))[1]? = none) :
    convert_tif_to_npy fs tif_file output_dir = .error .malformedFilename := by
  simp [convert_tif_to_npy, h]

/-- Witness for C4 at `data.tif` — the error is raised even though the source
file is present and readable on the filesystem. -/
theorem C4_malformed_filename_witness :
    (pySplit '_' (pyBasename (pstr "data.tif")))[1]? = none ∧
    convert_tif_to_npy ⟨[(pstr "data.tif", Entry.raster ⟨1, 1, 1, [[[Val.finite 1]]]⟩)]⟩
        (pstr "data.tif") none = .error .malformedFilename :=
  ⟨by decide,
    C4_malformed_filename ⟨[(pstr "data.tif", Entry.raster ⟨1, 1, 1, [[[Val.finite 1]]]⟩)]⟩
      (pstr "data.tif") none (by decide)⟩

/-- C9: whenever the basename has a second `_`-delimited token, that token is
accepted as the year with no validation of its content: it is substituted
verbatim into the output filename template and `MalformedFilename` is never
raised, whatever the token's content and the filesystem state. -/
theorem C9_year_token_unvalidated (fs : FS) (tif_file year : PyStr)
    (output_dir : Option PyStr)
    (h : (pySplit '_' (pyBasename tif_file))[1]? = some year) :
    derivedOutputName (pyBasename tif_file) =
      some (pstr "austin_embeddings_" ++ year ++ pstr "_800m_64d.npy") ∧
    convert_tif_to_npy fs tif_file output_dir ≠ .error .malformedFilename := by
  constructor
  · simp [derivedOutputName, h, outputBasename]
  · simp only [convert_tif_to_npy, h]
    split
    · simp
    · split <;> simp

/-- Witness for C9 at `foo_bar_800m.tif`: the non-numeric token `bar` is
substituted verbatim and no error is raised for it. -/
theorem C9_year_token_unvalidated_witness :
    (pySplit '_' (pyBasename (pstr "foo_bar_800m.tif")))[1]? = some (pstr "bar") ∧
    derivedOutputName (pyBasename (pstr "foo_bar_800m.tif")) =
      some (pstr "austin_embeddings_" ++ pstr "bar" ++ pstr "_800m_64d.npy") :=
  ⟨by decide,
    (C9_year_token_unvalidated ⟨[]⟩ (pstr "foo_bar_800m.tif") (pstr "bar") none (by decide)).1⟩

/-- C3: when the derived output path already exists, `convert_tif_to_npy`
returns it immediately with the filesystem unchanged — no file is created,
modified or deleted, and the result does not depend on the source file's entry
(the statement holds for every filesystem with the output present, including
those where the source is absent or unreadable, so the source is never
opened).  Consequently a second call on the same source and output directory
short-circuits and returns the same output path. -/
theorem C3_idempotent_short_circuit (fs : FS) (tif_file year : PyStr)
    (output_dir : Option PyStr)
    (hy : (pySplit '_' (pyBasename tif_file))[1]? = some year) :
    (fs.existsPath (pyJoin (output_dir.getD (pyDirname tif_file)) (outputBasename year)) =
        true →
      convert_tif_to_npy fs tif_file output_dir =
        .ok (fs, pyJoin (output_dir.getD (pyDirname tif_file)) (outputBasename year))) ∧
    (∀ fs₁ out, convert_tif_to_npy fs tif_file output_dir = .ok (fs₁, out) →
      convert_tif_to_npy fs₁ tif_file output_dir = .ok (fs₁, out)) := by
  constructor
  · intro hex
    exact convert_shortCircuit hy hex
  · intro fs₁ out h
    obtain ⟨y', hy', hout, hcase⟩ := convert_ok_inv h
    rw [hy] at hy'
    injection hy' with hyy
    subst hyy
    have hex1 : fs₁.existsPath out = true := by
      rcases hcase with ⟨hex, rfl⟩ | ⟨hex, r, hr, rfl⟩
      · exact hex
      · subst hout
        simp [FS.existsPath, lookup_save_self]
    subst hout
    exact convert_shortCircuit hy hex1

/-- Witness for C3: the output already exists, so the call returns it with
the filesystem untouched. -/
theorem C3_idempotent_short_circuit_witness :
    (pySplit '_' (pyBasename (pstr "d/austin_2023_800m.tif")))[1]? = some (pstr "2023") ∧
    convert_tif_to_npy ⟨[(pstr "d/austin_embeddings_2023_800m_64d.npy", Entry.npy [])]⟩
        (pstr "d/austin_2023_800m.tif") none =
      .ok (⟨[(pstr "d/austin_embeddings_2023_800m_64d.npy", Entry.npy [])]⟩,
           pstr "d/austin_embeddings_2023_800m_64d.npy") :=
  ⟨by decide, by
    have h := (C3_idempotent_short_circuit
      ⟨[(pstr "d/austin_embeddings_2023_800m_64d.npy", Entry.npy [])]⟩
      (pstr "d/austin_2023_800m.tif") (pstr "2023") none (by decide)).1 (by decide)
    exact h.trans (by decide)⟩

/-- C5: the driver loop of `main` never aborts — every candidate file either
contributes an entry to `converted_files` or is reported as exactly one
failure, so the two counts always sum to the number of candidates; and in the
concrete three-file scenario where the second file is unreadable, files 1 and
3 are converted (their cleaned arrays are saved and their output paths
collected in order) while exactly one failure is reported for file 2. -/
theorem C5_batch_partial_failure :
    (∀ (fs : FS) (files : List PyStr),
      ((mainLoop fs files).2.1).length + (mainLoop fs files).2.2 = files.length) ∧
    mainLoop
        ⟨[(pstr "austin_2021_800m.tif", Entry.raster ⟨1, 1, 1, [[[Val.nan]]]⟩),
          (pstr "austin_2022_800m.tif", Entry.unreadable),
          (pstr "austin_2023_800m.tif", Entry.raster ⟨1, 1, 1, [[[Val.finite 5]]]⟩)]⟩
        [pstr "austin_2021_800m.tif", pstr "austin_2022_800m.tif",
         pstr "austin_2023_800m.tif"] =
      (⟨[(pstr "austin_embeddings_2023_800m_64d.npy", Entry.npy [[[Val.finite 5]]]),
         (pstr "austin_embeddings_2021_800m_64d.npy", Entry.npy [[[Val.finite 0]]]),
         (pstr "austin_2021_800m.tif", Entry.raster ⟨1, 1, 1, [[[Val.nan]]]⟩),
         (pstr "austin_2022_800m.tif", Entry.unreadable),
         (pstr "austin_2023_800m.tif", Entry.raster ⟨1, 1, 1, [[[Val.finite 5]]]⟩)]⟩,
       [pstr "austin_embeddings_2021_800m_64d.npy",
        pstr "austin_embeddings_2023_800m_64d.npy"], 1) := by
  constructor
  · intro fs files
    have key : ∀ (l : List PyStr) (st : FS × List PyStr × ℕ),
        ((l.foldl batchStep st).2.1).length + (l.foldl batchStep st).2.2 =
          st.2.1.length + st.2.2 + l.length := by
      intro l
      induction l with
      | nil => intro st; simp
      | cons f rest ih =>
        intro st
        have hstep : ((batchStep st f).2.1).length + (batchStep st f).2.2 =
            st.2.1.length + st.2.2 + 1 := by
          cases h : convert_tif_to_npy st.1 f none with
          | ok pr =>
            obtain ⟨fs₂, out⟩ := pr
            simp [batchStep, h]
            omega
          | error e =>
            simp [batchStep, h]
            omega
        rw [List.foldl_cons, ih (batchStep st f)]
        simp only [List.length_cons]
        omega
    simpa [mainLoop] using key files (fs, [], 0)
  · decide

/-- C6, counterexample: `austin_2023_800m.tif` and `austin_2023_extra_800m.tif`
are distinct filenames, both in the expected input set (both match the driver's
glob `austin_*_800m.tif`), yet they derive the same output filename, because
only the second `_`-delimited token enters the output template — the mapping is
not injective over the expected input set. -/
theorem C6_counterexample :
    matchesAustinGlob (pstr "austin_2023_800m.tif") = true ∧
    matchesAustinGlob (pstr "austin_2023_extra_800m.tif") = true ∧
    pstr "austin_2023_800m.tif" ≠ pstr "austin_2023_extra_800m.tif" ∧
    derivedOutputName (pstr "austin_2023_800m.tif") =
      derivedOutputName (pstr "austin_2023_extra_800m.tif") := by
  refine ⟨by decide, by decide, by decide, by decide⟩

/-- C6, amended: the mapping from source filename to output filename is a pure
deterministic function (equal filenames yield equal outputs), and it is
injective only over the narrower family `austin_<year>_800m.tif` with an
underscore-free year token: there, distinct filenames derive distinct output
filenames. -/
theorem C6_amended_injective :
    (∀ a b : PyStr, a = b → derivedOutputName a = derivedOutputName b) ∧
    (∀ y₁ y₂ : PyStr, '_' ∉ y₁ → '_' ∉ y₂ →
      pstr "austin" ++ pstr "_" ++ y₁ ++ pstr "_" ++ pstr "800m" ++ pstr ".tif" ≠
        pstr "austin" ++ pstr "_" ++ y₂ ++ pstr "_" ++ pstr "800m" ++ pstr ".tif" →
      derivedOutputName
          (pstr "austin" ++ pstr "_" ++ y₁ ++ pstr "_" ++ pstr "800m" ++ pstr ".tif") ≠
        derivedOutputName
          (pstr "austin" ++ pstr "_" ++ y₂ ++ pstr "_" ++ pstr "800m" ++ pstr ".tif")) := by
  constructor
  · intro a b hab
    rw [hab]
  · intro y₁ y₂ h1 h2 hneq hcon
    rw [name_split_form, name_split_form] at hcon
    rw [derivedOutputName_tokens (by decide) h1,
        derivedOutputName_tokens (by decide) h2] at hcon
    injection hcon with hcon
    unfold outputBasename at hcon
    rw [List.append_assoc, List.append_assoc] at hcon
    have hy12 : y₁ = y₂ :=
      List.append_cancel_right (List.append_cancel_left hcon)
    exact hneq (by rw [hy12])

/-- Witness for C6 (amended): two distinct year tokens give distinct output
filenames. -/
theorem C6_amended_injective_witness :
    ('_' ∉ pstr "2023") ∧ ('_' ∉ pstr "2024") ∧
    derivedOutputName
        (pstr "austin" ++ pstr "_" ++ pstr "2023" ++ pstr "_" ++ pstr "800m" ++ pstr ".tif") ≠
      derivedOutputName
        (pstr "austin" ++ pstr "_" ++ pstr "2024" ++ pstr "_" ++ pstr "800m" ++ pstr ".tif") :=
  ⟨by decide, by decide,
    C6_amended_injective.2 (pstr "2023") (pstr "2024") (by decide) (by decide) (by decide)⟩

/-- C7: on the path that actually reads the source (output not yet present,
source a readable raster whose `src.read()` data has the `[count, height,
width]` shape the backend guarantees), the persisted array is the cleaned
source data and has shape exactly `[count, height, width]` — no resampling or
reshaping between read and write. -/
theorem C7_shape_preservation (fs fs' : FS) (tif_file out : PyStr)
    (output_dir : Option PyStr) (r : Raster)
    (hr : fs.lookup tif_file = some (Entry.raster r))
    (hshape : hasShape r.data r.count r.height r.width)
    (h : convert_tif_to_npy fs tif_file output_dir = .ok (fs', out))
    (hnew : fs.existsPath out = false) :
    fs'.lookup out = some (Entry.npy (cleanData r.data)) ∧
    hasShape (cleanData r.data) r.count r.height r.width := by
  obtain ⟨year, hy, hout, hcase⟩ := convert_ok_inv h
  rcases hcase with ⟨hex, rfl⟩ | ⟨hex, r', hr', rfl⟩
  · rw [hex] at hnew
    exact absurd hnew (by simp)
  · rw [hr] at hr'
    injection hr' with hr'
    injection hr' with hr'
    subst hr'
    exact ⟨lookup_save_self fs out (cleanData r.data), hasShape_cleanData hshape⟩

/-- Witness for C7 on a concrete 1×2×2 raster. -/
theorem C7_shape_preservation_witness :
    FS.lookup ⟨[(pstr "a_2023_b.tif",
        Entry.raster ⟨1, 2, 2, [[[Val.finite 1, Val.finite 2], [Val.finite 3, Val.nan]]]⟩)]⟩
      (pstr "a_2023_b.tif") = some (Entry.raster
        ⟨1, 2, 2, [[[Val.finite 1, Val.finite 2], [Val.finite 3, Val.nan]]]⟩) ∧
    hasShape [[[Val.finite 1, Val.finite 2], [Val.finite 3, Val.nan]]] 1 2 2 ∧
    hasShape (cleanData [[[Val.finite 1, Val.finite 2], [Val.finite 3, Val.nan]]]) 1 2 2 :=
  ⟨by decide, by decide,
    (C7_shape_preservation
      ⟨[(pstr "a_2023_b.tif",
          Entry.raster ⟨1, 2, 2, [[[Val.finite 1, Val.finite 2], [Val.finite 3, Val.nan]]]⟩)]⟩
      (FS.save ⟨[(pstr "a_2023_b.tif",
          Entry.raster ⟨1, 2, 2, [[[Val.finite 1, Val.finite 2], [Val.finite 3, Val.nan]]]⟩)]⟩
        (pstr "austin_embeddings_2023_800m_64d.npy")
        (cleanData [[[Val.finite 1, Val.finite 2], [Val.finite 3, Val.nan]]]))
      (pstr "a_2023_b.tif") (pstr "austin_embeddings_2023_800m_64d.npy") none
      ⟨1, 2, 2, [[[Val.finite 1, Val.finite 2], [Val.finite 3, Val.nan]]]⟩
      (by decide) (by decide) (by decide) (by decide)).2⟩

/-- C8: a successful conversion creates exactly one new file, at the output
path, when no file previously existed there, and creates nothing when the
output pre-existed; in both cases every other path's entry is untouched — no
artifact is deleted or mutated.  (On the error paths the filesystem is
unchanged by construction of the model, mirroring that both raises in the
source occur before `np.save`.) -/
theorem C8_frame_effect (fs fs' : FS) (tif_file out : PyStr)
    (output_dir : Option PyStr)
    (h : convert_tif_to_npy fs tif_file output_dir = .ok (fs', out)) :
    (fs.existsPath out = true → fs' = fs) ∧
    (fs.existsPath out = false →
      ∃ d, fs'.entries = (out, Entry.npy d) :: fs.entries) ∧
    (∀ p, p ≠ out → fs'.lookup p = fs.lookup p) := by
  obtain ⟨year, hy, hout, hcase⟩ := convert_ok_inv h
  rcases hcase with ⟨hex, rfl⟩ | ⟨hex, r, hr, rfl⟩
  · refine ⟨fun _ => rfl, fun hf => ?_, fun p _ => rfl⟩
    rw [hex] at hf
    exact absurd hf (by simp)
  · refine ⟨fun ht => ?_, fun _ => ⟨cleanData r.data, rfl⟩, fun p hp => ?_⟩
    · rw [hex] at ht
      exact absurd ht (by simp)
    · exact lookup_save_other fs out p (cleanData r.data) hp

/-- Witness for C8 on a fresh conversion: one new entry at the output path,
all other paths untouched. -/
theorem C8_frame_effect_witness :
    convert_tif_to_npy ⟨[(pstr "a_2024_b.tif", Entry.raster ⟨1, 1, 1, [[[Val.nan]]]⟩)]⟩
        (pstr "a_2024_b.tif") none =
      .ok (⟨[(pstr "austin_embeddings_2024_800m_64d.npy", Entry.npy [[[Val.finite 0]]]),
             (pstr "a_2024_b.tif", Entry.raster ⟨1, 1, 1, [[[Val.nan]]]⟩)]⟩,
           pstr "austin_embeddings_2024_800m_64d.npy") ∧
    (∃ d, (FS.mk [(pstr "austin_embeddings_2024_800m_64d.npy", Entry.npy [[[Val.finite 0]]]),
             (pstr "a_2024_b.tif", Entry.raster ⟨1, 1, 1, [[[Val.nan]]]⟩)]).entries =
      (pstr "austin_embeddings_2024_800m_64d.npy", Entry.npy d) ::
        (FS.mk [(pstr "a_2024_b.tif", Entry.raster ⟨1, 1, 1, [[[Val.nan]]]⟩)]).entries) :=
  ⟨by decide,
    (C8_frame_effect ⟨[(pstr "a_2024_b.tif", Entry.raster ⟨1, 1, 1, [[[Val.nan]]]⟩)]⟩
      (⟨[(pstr "austin_embeddings_2024_800m_64d.npy", Entry.npy [[[Val.finite 0]]]),
         (pstr "a_2024_b.tif", Entry.raster ⟨1, 1, 1, [[[Val.nan]]]⟩)]⟩)
      (pstr "a_2024_b.tif") (pstr "austin_embeddings_2024_800m_64d.npy") none
      (by decide)).2.1 (by decide)⟩

/-- C10: a file skipped because its output path already exists is handled by
the driver loop exactly like a freshly converted file: its output path is
appended to `converted_files` (so it is counted in the final summary's
converted count) and no failure is recorded — indistinguishable, in the list
and the counts, from a file that was actually read, cleaned and written. -/
theorem C10_skipped_counted_as_converted (fs : FS) (conv : List PyStr) (errs : ℕ)
    (f year : PyStr)
    (hy : (pySplit '_' (pyBasename f))[1]? = some year)
    (hex : fs.existsPath (pyJoin (pyDirname f) (outputBasename year)) = true) :
    batchStep (fs, conv, errs) f =
      (fs, conv ++ [pyJoin (pyDirname f) (outputBasename year)], errs) := by
  have hc := @convert_shortCircuit fs f year none hy (by simpa using hex)
  unfold batchStep
  simp only [hc, Option.getD_none]

/-- Witness for C10: the output of `austin_2023_800m.tif` already exists, and
the driver still appends it to the converted list with no failure recorded. -/
theorem C10_skipped_counted_as_converted_witness :
    (pySplit '_' (pyBasename (pstr "austin_2023_800m.tif")))[1]? = some (pstr "2023") ∧
    batchStep (⟨[(pstr "austin_embeddings_2023_800m_64d.npy", Entry.npy [])]⟩,
        [pstr "earlier.npy"], 0) (pstr "austin_2023_800m.tif") =
      (⟨[(pstr "austin_embeddings_2023_800m_64d.npy", Entry.npy [])]⟩,
       [pstr "earlier.npy"] ++ [pyJoin (pyDirname (pstr "austin_2023_800m.tif"))
          (outputBasename (pstr "2023"))], 0) :=
  ⟨by decide,
    C10_skipped_counted_as_converted
      ⟨[(pstr "austin_embeddings_2023_800m_64d.npy", Entry.npy [])]⟩
      [pstr "earlier.npy"] 0 (pstr "austin_2023_800m.tif") (pstr "2023")
      (by decide) (by decide)⟩
